import Mathlib

/-!
Verification development for the ARCHETYPE backend core
(`src/Backend/src/core/gpu_manager.py`, `training_engine.py`, `model_factory.py`).

The Python classes are shallowly embedded: mutable object state becomes
explicit state passing, `async` methods that can raise become functions into
`Except PyError _` (or return the updated state together with an optional
propagating error), Python `dict`s in insertion order become association
lists, and results of external collaborators (torch, psutil, pyopencl,
websockets, the wall clock) become explicit environment parameters.
Float-valued telemetry fields (temperature, power, live loss values,
timestamps used only for display) do not influence any property considered
here and are omitted from the records.
-/

/-- Python exception classes that occur in the embedded fragments.
`runtimeError` is the `RuntimeError("No ... available, but ... requested")`
of `set_gpu_preference` (the spec's `PreferenceUnsatisfiable`), `valueError`
the `ValueError("... not found")` of the registries (the spec's `NotFound`). -/
inductive PyError where
  | valueError
  | runtimeError
  | indexError
  | keyError
  | connectionError
  deriving DecidableEq, Repr

/-- `class DeviceType(Enum)` of `gpu_manager.py` (lines 51-56). -/
inductive DeviceType where
  | cuda
  | directml
  | opencl
  | mps
  | cpu
  deriving DecidableEq, Repr

/-- `class VendorType(Enum)` of `gpu_manager.py` (lines 58-63). -/
inductive VendorType where
  | nvidia
  | amd
  | intel
  | apple
  | unknown
  deriving DecidableEq, Repr

/-- `@dataclass GPUDevice` of `gpu_manager.py` (lines 65-84).
The float-valued monitoring fields (`memory_usage_percent`, `temperature_c`,
`power_usage_w`) and the informational strings (`driver_version`,
`compute_capability`) play no role in detection control flow or selection
and are omitted. -/
structure GPUDevice where
  device_id : String
  name : String
  vendor : VendorType
  device_type : DeviceType
  compute_units : Nat
  total_memory_mb : Nat
  available_memory_mb : Nat
  performance_score : Nat
  is_discrete : Bool
  supports_fp16 : Bool
  supports_int8 : Bool
  max_work_group_size : Nat
  deriving DecidableEq, Repr

/-- Environment of one discovery pass: what the platform probes would yield.
For each GPU backend the list holds exactly the `GPUDevice` records that the
probe's enumeration loop appends (built from torch / torch_directml /
pyopencl data; the numeric construction of the individual records influences
no property considered here, so the built records are environment data).
`cuda_error` is an exception raised by the unguarded torch calls of
`_detect_cuda_devices` (lines 163-198) after `cuda_devices` were appended;
the DirectML/OpenCL/MPS probe bodies are wrapped in `try/except`, so an
exception there is absorbed and only the devices appended before it remain
(already reflected in the lists).  `cpu_cores` and `cpu_threads` are
`psutil.cpu_count(logical=False)` / `(logical=True)`, both of which psutil
documents as possibly `None`; `cpu_device` is the CPU record that
`_detect_cpu_device` builds from them. -/
structure DetectEnv where
  cuda_available : Bool
  cuda_devices : List GPUDevice
  cuda_error : Option PyError
  directml_available : Bool
  directml_devices : List GPUDevice
  opencl_available : Bool
  opencl_devices : List GPUDevice
  mps_available : Bool
  mps_device : Option GPUDevice
  cpu_cores : Option Nat
  cpu_threads : Option Nat
  cpu_device : GPUDevice
  deriving DecidableEq, Repr

/-- `UniversalGPUManager._detect_cuda_devices` (lines 149-198): returns
early when CUDA is unavailable; otherwise the enumeration loop appends the
built devices one by one, and an exception from the torch calls — which are
not inside any `try/except` in this method — propagates (second component).
The `pynvml` monitoring block is inside its own `try/except` and cannot
raise out. -/
def detect_cuda_devices (env : DetectEnv) (devices : List GPUDevice) :
    List GPUDevice × Option PyError :=
  if env.cuda_available then (devices ++ env.cuda_devices, env.cuda_error)
  else (devices, none)

/-- `_detect_directml_devices` (lines 200-246): the whole enumeration is
inside `try/except`, so it never raises; it appends the devices built
before any absorbed failure. -/
def detect_directml_devices (env : DetectEnv) (devices : List GPUDevice) :
    List GPUDevice :=
  devices ++ env.directml_devices

/-- `_detect_opencl_devices` (lines 248-303): per-platform and outer
`try/except`; never raises, appends what was built. -/
def detect_opencl_devices (env : DetectEnv) (devices : List GPUDevice) :
    List GPUDevice :=
  devices ++ env.opencl_devices

/-- `_detect_mps_devices` (lines 305-339): body in `try/except`; appends at
most one device. -/
def detect_mps_devices (env : DetectEnv) (devices : List GPUDevice) :
    List GPUDevice :=
  devices ++ env.mps_device.toList

/-- `_detect_cpu_device` (lines 341-368): the CPU record is appended only
under `if cpu_cores is not None and cpu_threads is not None:`; when psutil
cannot determine a count, nothing is appended. -/
def detect_cpu_device (env : DetectEnv) (devices : List GPUDevice) :
    List GPUDevice :=
  match env.cpu_cores, env.cpu_threads with
  | some _, some _ => devices ++ [env.cpu_device]
  | _, _ => devices

/-- `UniversalGPUManager._detect_all_devices` (lines 123-147): reset the
catalog to `[]`, then run the probes in order — CUDA unconditionally,
DirectML/OpenCL/MPS guarded by their availability flags, CPU always.  Only
the CUDA probe can raise out of its body; such an exception propagates out
of `_detect_all_devices` at once, skipping the remaining probes including
the CPU probe.  The result pairs the catalog with the propagating
exception, if any (Python mutations survive the exception, so the partial
catalog is kept alongside it). -/
def detect_all_devices (env : DetectEnv) : List GPUDevice × Option PyError :=
  match detect_cuda_devices env [] with
  | (devices, some e) => (devices, some e)
  | (devices, none) =>
    let devices :=
      if env.directml_available then detect_directml_devices env devices
      else devices
    let devices :=
      if env.opencl_available then detect_opencl_devices env devices
      else devices
    let devices :=
      if env.mps_available then detect_mps_devices env devices
      else devices
    (detect_cpu_device env devices, none)

/-- One insertion step of the stable descending sort: the inserted element is
placed after every element with a strictly greater score and before the first
element whose score is not greater (so catalog order is kept among equal
scores). -/
def insortDesc (x : GPUDevice) : List GPUDevice → List GPUDevice
  | [] => [x]
  | y :: ys =>
    if x.performance_score < y.performance_score then y :: insortDesc x ys
    else x :: y :: ys

/-- `sorted(self.devices, key=lambda d: d.performance_score, reverse=True)`
(`gpu_manager.py` line 377).  CPython's sort is stable; a stable sort by one
key has a unique result, namely the order by (score descending, original
position ascending), which this insertion sort computes. -/
def pySortedDesc : List GPUDevice → List GPUDevice
  | [] => []
  | x :: xs => insortDesc x (pySortedDesc xs)

/-- Specification-side selector: the first element of the list satisfying `p`
whose performance score is maximal among the elements satisfying `p`
("highest score, ties broken by catalog order, first discovered wins"). -/
def firstMaxP (p : GPUDevice → Bool) : List GPUDevice → Option GPUDevice
  | [] => none
  | x :: xs =>
    match firstMaxP p xs with
    | none => if p x then some x else none
    | some y =>
      if p x ∧ y.performance_score ≤ x.performance_score then some x else some y

/-- What it means for `d` to be the deterministic pick from catalog `l` under
filter `p`: a member satisfying `p`, of maximal score among such members, and
earlier in catalog order than every other maximal one. -/
def IsFirstMax (p : GPUDevice → Bool) (l : List GPUDevice) (d : GPUDevice) : Prop :=
  d ∈ l ∧ p d = true ∧
  (∀ e ∈ l, p e = true → e.performance_score ≤ d.performance_score) ∧
  ∃ l₁ l₂, l = l₁ ++ d :: l₂ ∧
    ∀ e ∈ l₁, p e = true → e.performance_score < d.performance_score

/-- Python's `max(devices, key=lambda d: d.performance_score)` on a list
(returns the first maximal element; raises on an empty list, modelled as
`none`). -/
def pyMaxByScore : List GPUDevice → Option GPUDevice
  | [] => none
  | x :: xs =>
    some (xs.foldl (fun b d =>
      if b.performance_score < d.performance_score then d else b) x)

/-- `UniversalGPUManager._fallback_to_cpu` (`gpu_manager.py` lines 427-443),
restricted to its effect on the catalog and the selected device. `cpuProbe`
is the device `_detect_cpu_device` would append: `none` when
`psutil.cpu_count` reports no core count (the probe then appends nothing).
With an empty catalog and no probe contribution, `self.devices[-1]` raises
`IndexError`.  Setting `self.torch_device` is not part of the modelled
state. -/
def fallback_to_cpu (devices : List GPUDevice) (cpuProbe : Option GPUDevice) :
    Except PyError (List GPUDevice × GPUDevice) :=
  match devices.find? (fun d => d.device_type == DeviceType.cpu) with
  | some d => .ok (devices, d)
  | none =>
    let devices' := devices ++ cpuProbe.toList
    match devices'.getLast? with
    | some d => .ok (devices', d)
    | none => .error .indexError

/-- The filter of the discrete-GPU preference pass inside
`_auto_select_device`: `d.is_discrete and d.device_type != DeviceType.CPU`
(line 380). -/
def isDiscreteGpu (d : GPUDevice) : Bool :=
  d.is_discrete && d.device_type != DeviceType.cpu

/-- `UniversalGPUManager._auto_select_device` (`gpu_manager.py` lines
370-387): on an empty catalog fall back to CPU, otherwise sort by score
descending (stable), prefer the first discrete non-CPU device of the sorted
order, else take the head of the sorted order.  Returns the (possibly grown)
catalog together with the newly selected device. -/
def auto_select_device (devices : List GPUDevice) (cpuProbe : Option GPUDevice) :
    Except PyError (List GPUDevice × GPUDevice) :=
  if devices.isEmpty then fallback_to_cpu devices cpuProbe
  else
    let sorted_devices := pySortedDesc devices
    let discrete_devices := sorted_devices.filter isDiscreteGpu
    match discrete_devices.head? with
    | some d => .ok (devices, d)
    | none =>
      match sorted_devices.head? with
      | some d => .ok (devices, d)
      | none => .error .indexError

/-- The validated preference strings of
`UniversalGPUManager.set_gpu_preference` (`gpu_manager.py` line 677). -/
inductive Preference where
  | auto
  | gpu_only
  | cpu_only
  | nvidia_only
  | amd_only
  | intel_only
  deriving DecidableEq, Repr

/-- `UniversalGPUManager.set_gpu_preference` (`gpu_manager.py` lines
675-745), as a function of the current catalog (plus the CPU-probe
environment used by the fallback path).  `_initialize_device` only binds the
torch handle and absorbs its own errors internally; it is modelled as a
no-op on the catalog/selection state, i.e. the environment where
initialization of the selected device succeeds.  The `RuntimeError` raised
when a vendor/class filter matches nothing is the spec's
`PreferenceUnsatisfiable`. -/
def set_gpu_preference (devices : List GPUDevice) (cpuProbe : Option GPUDevice) :
    Preference → Except PyError (List GPUDevice × GPUDevice)
  | .auto => auto_select_device devices cpuProbe
  | .cpu_only =>
    match devices.find? (fun d => d.device_type == DeviceType.cpu) with
    | some d => .ok (devices, d)
    | none => fallback_to_cpu devices cpuProbe
  | .gpu_only =>
    let gpu_devices := devices.filter (fun d => d.device_type != DeviceType.cpu)
    match pyMaxByScore gpu_devices with
    | some d => .ok (devices, d)
    | none => .error .runtimeError
  | .nvidia_only =>
    let nvidia_devices := devices.filter
      (fun d => d.vendor == VendorType.nvidia && d.device_type != DeviceType.cpu)
    match pyMaxByScore nvidia_devices with
    | some d => .ok (devices, d)
    | none => .error .runtimeError
  | .amd_only =>
    let amd_devices := devices.filter
      (fun d => d.vendor == VendorType.amd && d.device_type != DeviceType.cpu)
    match pyMaxByScore amd_devices with
    | some d => .ok (devices, d)
    | none => .error .runtimeError
  | .intel_only =>
    let intel_devices := devices.filter
      (fun d => d.vendor == VendorType.intel && d.device_type != DeviceType.cpu)
    match pyMaxByScore intel_devices with
    | some d => .ok (devices, d)
    | none => .error .runtimeError

/-- Descending sortedness by performance score. -/
def SortedDesc (l : List GPUDevice) : Prop :=
  List.Pairwise (fun a b => b.performance_score ≤ a.performance_score) l

/-- A discrete NVIDIA CUDA card with score 900 (concrete test catalog entry,
the scenario of spec section 8). -/
def gpu900 : GPUDevice :=
  { device_id := "cuda:0", name := "GPU A", vendor := .nvidia,
    device_type := .cuda, compute_units := 80, total_memory_mb := 16384,
    available_memory_mb := 16000, performance_score := 900,
    is_discrete := true, supports_fp16 := true, supports_int8 := true,
    max_work_group_size := 1024 }

/-- A discrete AMD OpenCL card with score 400 (concrete test catalog entry). -/
def gpu400 : GPUDevice :=
  { device_id := "opencl:P:0", name := "GPU B", vendor := .amd,
    device_type := .opencl, compute_units := 36, total_memory_mb := 8192,
    available_memory_mb := 8192, performance_score := 400,
    is_discrete := true, supports_fp16 := true, supports_int8 := true,
    max_work_group_size := 256 }

/-- The CPU fallback device with the base score 100
(`_detect_cpu_device`, lines 341-368). -/
def cpu100 : GPUDevice :=
  { device_id := "cpu:0", name := "CPU (8C/16T)", vendor := .unknown,
    device_type := .cpu, compute_units := 8, total_memory_mb := 32768,
    available_memory_mb := 16384, performance_score := 100,
    is_discrete := false, supports_fp16 := true, supports_int8 := true,
    max_work_group_size := 16 }

/-- A discovery environment in which CUDA is reported available but the
torch enumeration raises (for example `torch.cuda.get_device_properties`
failing); the other probes would have devices to contribute and psutil
reports core counts. -/
def envCudaRaises : DetectEnv :=
  { cuda_available := true, cuda_devices := [], cuda_error := some .runtimeError,
    directml_available := true, directml_devices := [],
    opencl_available := true, opencl_devices := [gpu400],
    mps_available := false, mps_device := none,
    cpu_cores := some 8, cpu_threads := some 16, cpu_device := cpu100 }

/-- A discovery environment in which every probe behaves and OpenCL finds
one GPU, but `psutil.cpu_count(logical=False)` returns `None`. -/
def envNoCpuCount : DetectEnv :=
  { cuda_available := false, cuda_devices := [], cuda_error := none,
    directml_available := false, directml_devices := [],
    opencl_available := true, opencl_devices := [gpu400],
    mps_available := false, mps_device := none,
    cpu_cores := none, cpu_threads := some 16, cpu_device := cpu100 }

/-- Job lifecycle states: the `status` strings written by
`training_engine.py` (`"initializing"`, `"running"`, `"stopping"`,
`"paused"`, `"completed"`, `"cancelled"`, `"failed"`). -/
inductive JobStatus where
  | initializing
  | running
  | stopping
  | paused
  | completed
  | cancelled
  | failed
  deriving DecidableEq, Repr

/-- An opaque configuration dictionary (the `training_config`,
`dataset_config` and `validation_config` payloads). -/
structure ConfigBag where
  kv : List (String × String)
  deriving DecidableEq, Repr

/-- The per-job `training_info` dictionary created by
`TrainingEngine.start_training` (lines 40-57), restricted to its non-float
entries.  The three configuration entries are `Option`s so that a popped
key (`dict.pop`) is representable as `none`. -/
structure TrainingInfo where
  training_id : String
  model_id : String
  status : JobStatus
  current_epoch : Nat
  total_epochs : Nat
  config : Option ConfigBag
  dataset_config : Option ConfigBag
  validation_config : Option ConfigBag
  deriving DecidableEq, Repr

/-- A WebSocket channel; `send_json` on it succeeds iff it is alive. -/
structure Channel where
  cid : Nat
  alive : Bool
  deriving DecidableEq, Repr

/-- The JSON frame passed to `websocket.send_json` in
`_broadcast_training_progress` (lines 217-221): `progress_data` has entries
`type`, `training_id` and `data`, the latter holding the job's whole
`training_info` dictionary. -/
structure ProgressFrame where
  type : String
  training_id : String
  data : TrainingInfo
  deriving DecidableEq, Repr

/-- `await websocket.send_json(frame)`: delivery fails on a dead channel. -/
def send_json (ch : Channel) (_frame : ProgressFrame) : Except PyError Unit :=
  if ch.alive then .ok () else .error .connectionError

/-- The `for websocket in self.subscribers[training_id]` loop of
`_broadcast_training_progress` (lines 230-235): each delivery is tried; a
failure is swallowed by the bare `except: pass` and the loop continues with
the remaining subscribers.  Despite the `# Remove failed connections`
comment above the `pass`, nothing is removed.  Returns the deliveries
made, in order, as (channel id, frame) pairs. -/
def broadcast_send_loop (frame : ProgressFrame) :
    List Channel → List (Nat × ProgressFrame)
  | [] => []
  | ch :: rest =>
    match send_json ch frame with
    | .ok _ => (ch.cid, frame) :: broadcast_send_loop frame rest
    | .error _ => broadcast_send_loop frame rest

/-- `dict` lookup on an insertion-ordered association list
(`k in d` membership test and `d[k]` access). -/
def dictLookup {α : Type} (m : List (String × α)) (k : String) : Option α :=
  (m.find? (fun p => p.1 == k)).map (fun p => p.2)

/-- The stripped copy `broadcast_data` built by
`_broadcast_training_progress` lines 223-227: `pop("config")`,
`pop("dataset_config")`, `pop("validation_config")`. -/
def strip_configs (info : TrainingInfo) : TrainingInfo :=
  { info with
    config := none
    dataset_config := none
    validation_config := none }

/-- `TrainingEngine._broadcast_training_progress` (lines 214-235) for one
job id: when the job has subscribers, build `progress_data` (whose `data`
entry is the full `training_info`), build the stripped copy
`broadcast_data` (lines 223-227 — the source never uses it afterwards),
and send `progress_data` to every subscriber, swallowing per-channel
failures.  Returns the (unchanged) subscriber map and the deliveries;
`self.active_trainings[training_id]` (line 220) raises `KeyError` when the
job record is gone. -/
def broadcast_training_progress (subscribers : List (String × List Channel))
    (active_trainings : List (String × TrainingInfo)) (training_id : String) :
    Except PyError (List (String × List Channel) × List (Nat × ProgressFrame)) :=
  match dictLookup subscribers training_id with
  | none => .ok (subscribers, [])
  | some chans =>
    match dictLookup active_trainings training_id with
    | none => .error .keyError
    | some info =>
      let progress_data : ProgressFrame :=
        { type := "training_progress", training_id := training_id,
          data := info }
      let broadcast_data := strip_configs info
      .ok (subscribers, broadcast_send_loop progress_data chans)

/-- The mutable state of `TrainingEngine` (lines 19-21): the job map, the
task map (each task carrying its cancellation-requested flag), and the
subscriber map. -/
structure EngineState where
  active_trainings : List (String × TrainingInfo)
  training_tasks : List (String × Bool)
  subscribers : List (String × List Channel)
  deriving DecidableEq, Repr

/-- In-place status update of one job record
(`self.active_trainings[id]["status"] = ...`). -/
def setStatus (m : List (String × TrainingInfo)) (k : String)
    (st : JobStatus) : List (String × TrainingInfo) :=
  m.map (fun p => if p.1 == k then (p.1, { p.2 with status := st }) else p)

/-- `task.cancel()` on the task entry of one job id. -/
def setCancel (m : List (String × Bool)) (k : String) : List (String × Bool) :=
  m.map (fun p => if p.1 == k then (p.1, true) else p)

/-- `TrainingEngine.stop_training` (lines 237-245): when the id is present
in the job map, set its status to `"stopping"` and, nested inside that
check, request the task's cancellation when the id also has a live task;
an absent id is a silent no-op. -/
def stop_training (s : EngineState) (training_id : String) : EngineState :=
  match dictLookup s.active_trainings training_id with
  | none => s
  | some _ =>
    let s' := { s with
      active_trainings := setStatus s.active_trainings training_id .stopping }
    match dictLookup s'.training_tasks training_id with
    | none => s'
    | some _ =>
      { s' with training_tasks := setCancel s'.training_tasks training_id }

/-- `TrainingEngine.pause_training` (lines 247-251): unconditionally sets
the status of a present job to `"paused"`; an absent id is a no-op. -/
def pause_training (s : EngineState) (training_id : String) : EngineState :=
  match dictLookup s.active_trainings training_id with
  | none => s
  | some _ =>
    { s with
      active_trainings := setStatus s.active_trainings training_id .paused }

/-- `TrainingEngine.resume_training` (lines 253-257): unconditionally sets
the status of a present job to `"running"`; an absent id is a no-op. -/
def resume_training (s : EngineState) (training_id : String) : EngineState :=
  match dictLookup s.active_trainings training_id with
  | none => s
  | some _ =>
    { s with
      active_trainings := setStatus s.active_trainings training_id .running }

/-- `TrainingEngine.get_training_status` (lines 259-264): raises
`ValueError` for an unknown id, else returns a copy of the record. -/
def get_training_status (s : EngineState) (training_id : String) :
    Except PyError TrainingInfo :=
  match dictLookup s.active_trainings training_id with
  | none => .error .valueError
  | some info => .ok info

/-- Suspension-point program counter of one `_training_loop` execution
task.  `start`: the task was created by `asyncio.create_task` and has not
run yet.  `sleeping`: the task is suspended at the
`await asyncio.sleep(0.01)` that ends each epoch iteration — the loop's
only unconditional suspension point (a broadcast with subscribers also
suspends, at the same boundary for the properties studied here).
`finished`: the coroutine has terminated. -/
inductive TaskPC where
  | start
  | sleeping
  | finished
  deriving DecidableEq, Repr

/-- One job of `TrainingEngine` as acted on by its own execution task and
the control calls: the fields of its `training_info` record that the loop
reads and writes, the task's suspension point, whether `task.cancel()` has
been requested, and whether the id is still in `self.training_tasks` (the
task's `finally` block removes it). -/
structure JobMachine where
  status : JobStatus
  current_epoch : Nat
  total_epochs : Nat
  pc : TaskPC
  cancelRequested : Bool
  inTasks : Bool
  deriving DecidableEq, Repr

/-- `TrainingEngine.start_training` (lines 30-66): creates the record in
status `"initializing"` with `current_epoch = 0`, registers the task, and
returns immediately; the task has not run yet. -/
def start_training1 (epochs : Nat) : JobMachine :=
  { status := .initializing, current_epoch := 0, total_epochs := epochs,
    pc := .start, cancelRequested := false, inTasks := true }

/-- One iteration boundary of the `for epoch in range(epochs)` loop of
`_training_loop` (lines 84-136), entered with `current_epoch` epochs done:
if the range is exhausted, or the check `if training_info["status"] !=
"running": break` (line 85) fires, the loop is left — and the epilogue at
lines 138-141 then unconditionally sets the status to `"completed"`, after
which the `finally` block removes the task from `training_tasks`.
Otherwise the next epoch body runs atomically (its batch-level status
check, line 110, only re-enters this same boundary earlier) and the task
suspends at `await asyncio.sleep(0.01)` (line 136). -/
def loop_iter (s : JobMachine) : JobMachine :=
  if s.current_epoch = s.total_epochs then
    { s with status := .completed, pc := .finished, inTasks := false }
  else if s.status ≠ .running then
    { s with status := .completed, pc := .finished, inTasks := false }
  else
    { s with current_epoch := s.current_epoch + 1, pc := .sleeping }

/-- Resumption of the execution task from a suspension point.  asyncio
delivers a requested cancellation by raising `CancelledError` where the
suspended coroutine resumes; the handler at lines 143-145 then sets the
status to `"cancelled"` and the `finally` block removes the task.  A task
cancelled before it ever ran never enters its `try` block: the coroutine is
closed without the handler or the `finally` cleanup running, so the record
keeps its current status.  An uncancelled resumption from `start` first
executes `training_info["status"] = "running"` (line 73) and then enters
the loop; with `epochs = 0` the loop body never runs and the epilogue marks
the job `"completed"` at once. -/
def task_resume (s : JobMachine) : JobMachine :=
  match s.pc with
  | .finished => s
  | .start =>
    if s.cancelRequested then { s with pc := .finished }
    else loop_iter { s with status := .running }
  | .sleeping =>
    if s.cancelRequested then
      { s with status := .cancelled, pc := .finished, inTasks := false }
    else loop_iter s

/-- `stop_training` as it acts on one job present in the job map: set the
status to `"stopping"` and, when the id is still in `training_tasks`,
request the task's cancellation (lines 239-243). -/
def stop1 (s : JobMachine) : JobMachine :=
  if s.inTasks then
    { s with status := .stopping, cancelRequested := true }
  else
    { s with status := .stopping }

/-- `pause_training` as it acts on one present job (line 250). -/
def pause1 (s : JobMachine) : JobMachine :=
  { s with status := .paused }

/-- `resume_training` as it acts on one present job (line 256). -/
def resume1 (s : JobMachine) : JobMachine :=
  { s with status := .running }

/-- Events acting on one job under the cooperative event loop:
control-call coroutines run only while the execution task is suspended, so
an interleaving is a sequence of these events; a `task` event resumes the
task (a no-op once the task has finished). -/
inductive JobEv where
  | task
  | stop
  | pause
  | resume
  deriving DecidableEq, Repr

/-- Apply one event. -/
def applyEv (s : JobMachine) : JobEv → JobMachine
  | .task => task_resume s
  | .stop => stop1 s
  | .pause => pause1 s
  | .resume => resume1 s

/-- Run an interleaving of events. -/
def runEvs (s : JobMachine) (evs : List JobEv) : JobMachine :=
  evs.foldl applyEv s

/-- No continuation of any interleaving ever reaches `"cancelled"`. -/
def NeverCancelledFrom (s : JobMachine) : Prop :=
  ∀ evs : List JobEv, (runEvs s evs).status ≠ JobStatus.cancelled

/-- A concrete training configuration payload. -/
def cfgTrain : ConfigBag := ⟨[("epochs", "3"), ("batch_size", "10")]⟩

/-- A concrete dataset configuration payload. -/
def cfgData : ConfigBag := ⟨[("type", "dummy"), ("num_samples", "100")]⟩

/-- A concrete running job record whose bulk configuration is present. -/
def infoA : TrainingInfo :=
  { training_id := "t1", model_id := "m1", status := .running,
    current_epoch := 1, total_epochs := 3, config := some cfgTrain,
    dataset_config := some cfgData, validation_config := none }

/-- A dead subscriber channel. -/
def deadCh : Channel := { cid := 0, alive := false }

/-- A live subscriber channel. -/
def liveCh : Channel := { cid := 1, alive := true }

/-- The frame `_broadcast_training_progress` sends for `infoA`. -/
def frameA : ProgressFrame :=
  { type := "training_progress", training_id := "t1", data := infoA }

/-- A concrete job record in the terminal state `"completed"`. -/
def infoDone : TrainingInfo :=
  { training_id := "j", model_id := "m1", status := .completed,
    current_epoch := 3, total_epochs := 3, config := some cfgTrain,
    dataset_config := some cfgData, validation_config := none }

/-- Engine state holding the completed job `"j"`, whose task is gone. -/
def stDone : EngineState :=
  { active_trainings := [("j", infoDone)], training_tasks := [],
    subscribers := [] }

/-- A concrete machine state of a genuinely running job: one of three
epochs done, task suspended at the epoch-end sleep, task alive. -/
def jmRun : JobMachine :=
  { status := .running, current_epoch := 1, total_epochs := 3,
    pc := .sleeping, cancelRequested := false, inTasks := true }

/-- One record of `ModelFactory.models` (`model_factory.py` lines 49-59):
the metadata plus the live torch module (`model` entry), which
`get_model_info` pops; the architecture and hyperparameter bags are
opaque payloads and the torch module an opaque handle. -/
structure ModelInfo where
  id : String
  name : String
  model_type : String
  architecture : ConfigBag
  hyperparameters : ConfigBag
  parameter_count : Nat
  created_at : String
  status : String
  model : Option Nat
  deriving DecidableEq, Repr

/-- `ModelFactory.create_model` (lines 26-67): reject an unknown type tag
with `ValueError`; otherwise build the module via the external builder (an
opaque handle), compute `parameter_count` and `created_at` (environment
data from torch and the clock), record the metadata and insert it at the
fresh `model_id` generated by `uuid4` (insertion-ordered dict).  The
on-disk metadata copy is outside the modelled state. -/
def create_model (models : List (String × ModelInfo))
    (model_id name model_type : String)
    (architecture hyperparameters : ConfigBag) (handle : Nat)
    (param_count : Nat) (created_at : String) :
    Except PyError (List (String × ModelInfo)) :=
  if model_type == "mlp" || model_type == "rnn" || model_type == "cnn" then
    let model_info : ModelInfo :=
      { id := model_id, name := name, model_type := model_type,
        architecture := architecture, hyperparameters := hyperparameters,
        parameter_count := param_count, created_at := created_at,
        status := "created", model := some handle }
    .ok (models ++ [(model_id, model_info)])
  else .error .valueError

/-- `ModelFactory.get_model_info` (lines 183-191): `ValueError` for an
unknown id, else a copy of the record with the `model` entry popped. -/
def get_model_info (models : List (String × ModelInfo)) (model_id : String) :
    Except PyError ModelInfo :=
  match dictLookup models model_id with
  | none => .error .valueError
  | some info => .ok { info with model := none }

/-- `ModelFactory.delete_model` (lines 214-227): `ValueError` for an
unknown id, else remove the entry from the map (the on-disk unlink, a
no-op when the file is absent, is outside the modelled state). -/
def delete_model (models : List (String × ModelInfo)) (model_id : String) :
    Except PyError (List (String × ModelInfo)) :=
  match dictLookup models model_id with
  | none => .error .valueError
  | some _ => .ok (models.eraseP (fun p => p.1 == model_id))

theorem head?_mem {α : Type} {l : List α} {a : α} (h : l.head? = some a) : a ∈ l := by
  cases l with
  | nil => simp at h
  | cons b t =>
    simp only [List.head?_cons, Option.some.injEq] at h
    subst h; exact List.mem_cons_self _ _

theorem mem_insortDesc {a x : GPUDevice} {s : List GPUDevice} :
    a ∈ insortDesc x s ↔ a = x ∨ a ∈ s := by
  induction s with
  | nil => simp [insortDesc]
  | cons y ys ih =>
    by_cases h : x.performance_score < y.performance_score
    · rw [insortDesc, if_pos h]
      simp only [List.mem_cons, ih]
      tauto
    · rw [insortDesc, if_neg h]
      simp only [List.mem_cons]

theorem sortedDesc_insort {x : GPUDevice} {s : List GPUDevice}
    (hs : SortedDesc s) : SortedDesc (insortDesc x s) := by
  induction s with
  | nil =>
    rw [insortDesc]
    exact List.pairwise_singleton _ _
  | cons y ys ih =>
    obtain ⟨hy, hys⟩ := List.pairwise_cons.mp hs
    by_cases h : x.performance_score < y.performance_score
    · rw [insortDesc, if_pos h]
      refine List.pairwise_cons.mpr ⟨?_, ih hys⟩
      intro z hz
      rcases mem_insortDesc.mp hz with rfl | hz
      · exact Nat.le_of_lt h
      · exact hy z hz
    · rw [insortDesc, if_neg h]
      refine List.pairwise_cons.mpr ⟨?_, List.pairwise_cons.mpr ⟨hy, hys⟩⟩
      intro z hz
      rcases List.mem_cons.mp hz with rfl | hz
      · exact Nat.le_of_not_lt h
      · exact Nat.le_trans (hy z hz) (Nat.le_of_not_lt h)

theorem sortedDesc_pySorted (l : List GPUDevice) : SortedDesc (pySortedDesc l) := by
  induction l with
  | nil => simp [pySortedDesc, SortedDesc]
  | cons x xs ih => exact sortedDesc_insort ih

theorem head?_filter_mem {p : GPUDevice → Bool} {l : List GPUDevice} {z : GPUDevice}
    (h : (l.filter p).head? = some z) : z ∈ l ∧ p z = true := by
  have hz := head?_mem h
  rw [List.mem_filter] at hz
  exact hz

theorem filter_insort_head (p : GPUDevice → Bool) (x : GPUDevice)
    (s : List GPUDevice) (hs : SortedDesc s) :
    ((insortDesc x s).filter p).head? =
      match (s.filter p).head? with
      | none => if p x then some x else none
      | some y =>
        if p x ∧ y.performance_score ≤ x.performance_score then some x
        else some y := by
  induction s with
  | nil =>
    by_cases hp : p x <;> simp [insortDesc, List.filter, hp]
  | cons y ys ih =>
    rw [SortedDesc, List.pairwise_cons] at hs
    obtain ⟨hy, hys⟩ := hs
    by_cases h : x.performance_score < y.performance_score
    · rw [insortDesc, if_pos h]
      by_cases hpy : p y
      · have hcond : ¬(p x = true ∧ y.performance_score ≤ x.performance_score) := by
          rintro ⟨-, hle⟩
          exact absurd h (Nat.not_lt.mpr hle)
        rw [List.filter_cons, if_pos hpy]
        conv_rhs => rw [List.filter_cons, if_pos hpy]
        simp only [List.head?_cons]
        rw [if_neg hcond]
      · rw [List.filter_cons, if_neg hpy]
        conv_rhs => rw [List.filter_cons, if_neg hpy]
        exact ih hys
    · rw [insortDesc, if_neg h]
      have hxy : y.performance_score ≤ x.performance_score := Nat.le_of_not_lt h
      by_cases hpx : p x
      · rw [List.filter_cons, if_pos hpx]
        cases hfy : ((y :: ys).filter p).head? with
        | none => simp [hpx]
        | some z =>
          obtain ⟨hzmem, -⟩ := head?_filter_mem hfy
          have hzle : z.performance_score ≤ x.performance_score := by
            rcases List.mem_cons.mp hzmem with rfl | hz
            · exact hxy
            · exact Nat.le_trans (hy z hz) hxy
          simp [hpx, hzle]
      · rw [List.filter_cons, if_neg hpx]
        cases hfy : ((y :: ys).filter p).head? with
        | none => simp [hpx]
        | some z => simp [hpx]

theorem head_filter_pySorted (p : GPUDevice → Bool) (l : List GPUDevice) :
    ((pySortedDesc l).filter p).head? = firstMaxP p l := by
  induction l with
  | nil => simp [pySortedDesc, firstMaxP, List.filter]
  | cons x xs ih =>
    rw [pySortedDesc, filter_insort_head p x _ (sortedDesc_pySorted xs), ih,
      firstMaxP]

theorem firstMaxP_eq_none {p : GPUDevice → Bool} {l : List GPUDevice} :
    firstMaxP p l = none ↔ l.filter p = [] := by
  induction l with
  | nil => simp [firstMaxP]
  | cons x xs ih =>
    cases hxs : firstMaxP p xs with
    | none =>
      have hstep : firstMaxP p (x :: xs) =
          (if p x = true then some x else none) := by
        rw [firstMaxP, hxs]
      rw [hstep, List.filter_cons]
      by_cases hpx : p x
      · simp [hpx]
      · simp [hpx, ih.mp hxs]
    | some y =>
      have hstep : firstMaxP p (x :: xs) =
          (if p x = true ∧ y.performance_score ≤ x.performance_score
           then some x else some y) := by
        rw [firstMaxP, hxs]
      have hne : xs.filter p ≠ [] := by
        intro hnil
        rw [ih.mpr hnil] at hxs
        exact Option.noConfusion hxs
      rw [hstep, List.filter_cons]
      apply iff_of_false
      · by_cases hle : p x = true ∧ y.performance_score ≤ x.performance_score <;>
          simp [hle]
      · by_cases hpx : p x <;> simp [hpx, hne]

theorem firstMaxP_isFirstMax {p : GPUDevice → Bool} {l : List GPUDevice}
    {d : GPUDevice} (h : firstMaxP p l = some d) : IsFirstMax p l d := by
  induction l generalizing d with
  | nil => simp [firstMaxP] at h
  | cons x xs ih =>
    cases hxs : firstMaxP p xs with
    | none =>
      have h' : (if p x = true then some x else none) = some d := by
        rw [← h, firstMaxP, hxs]
      by_cases hpx : p x
      · rw [if_pos hpx] at h'
        obtain rfl : x = d := Option.some.inj h'
        have hfil := firstMaxP_eq_none.mp hxs
        refine ⟨List.mem_cons_self _ _, hpx, ?_, [], xs, rfl, by simp⟩
        intro e he hpe
        rcases List.mem_cons.mp he with rfl | he
        · exact Nat.le_refl _
        · exact absurd (List.mem_filter.mpr ⟨he, hpe⟩) (by simp [hfil])
      · rw [if_neg hpx] at h'
        exact Option.noConfusion h'
    | some y =>
      have h' : (if p x = true ∧ y.performance_score ≤ x.performance_score
          then some x else some y) = some d := by
        rw [← h, firstMaxP, hxs]
      obtain ⟨hymem, hpy, hymax, l₁, l₂, hsplit, hfw⟩ := ih hxs
      by_cases hc : p x = true ∧ y.performance_score ≤ x.performance_score
      · rw [if_pos hc] at h'
        obtain rfl : x = d := Option.some.inj h'
        refine ⟨List.mem_cons_self _ _, hc.1, ?_, [], xs, rfl, by simp⟩
        intro e he hpe
        rcases List.mem_cons.mp he with rfl | he
        · exact Nat.le_refl _
        · exact Nat.le_trans (hymax e he hpe) hc.2
      · rw [if_neg hc] at h'
        obtain rfl : y = d := Option.some.inj h'
        refine ⟨List.mem_cons_of_mem _ hymem, hpy, ?_, x :: l₁, l₂, by rw [hsplit]; rfl, ?_⟩
        · intro e he hpe
          rcases List.mem_cons.mp he with rfl | he
          · rcases Decidable.not_and_iff_or_not.mp hc with hnp | hnle
            · exact absurd hpe hnp
            · exact Nat.le_of_lt (Nat.lt_of_not_le hnle)
          · exact hymax e he hpe
        · intro e he hpe
          rcases List.mem_cons.mp he with rfl | he
          · rcases Decidable.not_and_iff_or_not.mp hc with hnp | hnle
            · exact absurd hpe hnp
            · exact Nat.lt_of_not_le hnle
          · exact hfw e he hpe

theorem foldl_max_eq (xs : List GPUDevice) :
    ∀ a : GPUDevice,
      xs.foldl (fun b d =>
        if b.performance_score < d.performance_score then d else b) a =
      (match firstMaxP (fun _ => true) xs with
       | none => a
       | some y =>
         if a.performance_score < y.performance_score then y else a) := by
  induction xs with
  | nil => intro a; simp [firstMaxP]
  | cons x xs ih =>
    intro a
    cases hxs : firstMaxP (fun _ => true) xs with
    | none =>
      have hstep : firstMaxP (fun _ => true) (x :: xs) = some x := by
        rw [firstMaxP, hxs]
        simp
      rw [hstep, List.foldl_cons, ih, hxs]
    | some y =>
      have hstep : firstMaxP (fun _ => true) (x :: xs) =
          (if y.performance_score ≤ x.performance_score then some x else some y) := by
        rw [firstMaxP, hxs]
        simp
      rw [hstep, List.foldl_cons, ih, hxs]
      by_cases hyx : y.performance_score ≤ x.performance_score
      · rw [if_pos hyx]
        by_cases hax : a.performance_score < x.performance_score
        · have h1 : ¬ x.performance_score < y.performance_score := Nat.not_lt.mpr hyx
          simp [hax, h1]
        · have h2 : ¬ a.performance_score < y.performance_score :=
            fun hc => hax (Nat.lt_of_lt_of_le hc hyx)
          simp [hax, h2]
      · rw [if_neg hyx]
        have hxy : x.performance_score < y.performance_score := Nat.lt_of_not_le hyx
        by_cases hax : a.performance_score < x.performance_score
        · have h3 := Nat.lt_trans hax hxy
          simp [hax, hxy, h3]
        · simp [hax]

theorem firstMaxP_true_filter (p : GPUDevice → Bool) (l : List GPUDevice) :
    firstMaxP (fun _ => true) (l.filter p) = firstMaxP p l := by
  induction l with
  | nil => simp [firstMaxP]
  | cons x xs ih =>
    rw [List.filter_cons]
    by_cases hpx : p x
    · rw [if_pos (by simp [hpx]), firstMaxP, ih, firstMaxP]
      cases firstMaxP p xs with
      | none => simp [hpx]
      | some y => simp [hpx]
    · rw [if_neg (by simp [hpx]), ih, firstMaxP]
      cases firstMaxP p xs with
      | none => simp [hpx]
      | some y => simp [hpx]

theorem pyMaxByScore_eq_firstMaxP (l : List GPUDevice) :
    pyMaxByScore l = firstMaxP (fun _ => true) l := by
  cases l with
  | nil => simp [pyMaxByScore, firstMaxP]
  | cons x xs =>
    rw [pyMaxByScore, firstMaxP]
    cases hxs : firstMaxP (fun _ => true) xs with
    | none =>
      rw [foldl_max_eq xs x, hxs]
      simp
    | some y =>
      rw [foldl_max_eq xs x, hxs]
      by_cases h : y.performance_score ≤ x.performance_score
      · have h1 : ¬ x.performance_score < y.performance_score := Nat.not_lt.mpr h
        simp [h, h1]
      · have h2 : x.performance_score < y.performance_score := Nat.lt_of_not_le h
        simp [h, h2]

theorem length_insortDesc (x : GPUDevice) (s : List GPUDevice) :
    (insortDesc x s).length = s.length + 1 := by
  induction s with
  | nil => rfl
  | cons y ys ih =>
    by_cases h : x.performance_score < y.performance_score
    · rw [insortDesc, if_pos h, List.length_cons, ih, List.length_cons]
    · rw [insortDesc, if_neg h, List.length_cons, List.length_cons]

theorem pySorted_ne_nil {l : List GPUDevice} (h : l ≠ []) :
    pySortedDesc l ≠ [] := by
  cases l with
  | nil => exact absurd rfl h
  | cons x xs =>
    intro hnil
    have hlen := congrArg List.length hnil
    rw [pySortedDesc, length_insortDesc] at hlen
    simp at hlen

theorem getLast?_ne_none {α : Type} {l : List α} (h : l ≠ []) :
    ∃ a, l.getLast? = some a := by
  induction l with
  | nil => exact absurd rfl h
  | cons x xs ih =>
    cases xs with
    | nil => exact ⟨x, rfl⟩
    | cons y ys =>
      obtain ⟨a, ha⟩ := ih (by simp)
      exact ⟨a, by rw [List.getLast?_cons_cons, ha]⟩

theorem head?_pySorted_eq (l : List GPUDevice) :
    (pySortedDesc l).head? = firstMaxP (fun _ => true) l := by
  rw [← head_filter_pySorted (fun _ => true) l, List.filter_true]

theorem vendor_pick_spec (p : GPUDevice → Bool) (devices : List GPUDevice) :
    ((match pyMaxByScore (devices.filter p) with
      | some d => (Except.ok (devices, d) : Except PyError (List GPUDevice × GPUDevice))
      | none => Except.error PyError.runtimeError) = Except.error PyError.runtimeError
      ↔ devices.filter p = []) ∧
    (∀ ds d, (match pyMaxByScore (devices.filter p) with
      | some d => (Except.ok (devices, d) : Except PyError (List GPUDevice × GPUDevice))
      | none => Except.error PyError.runtimeError) = Except.ok (ds, d) →
      ds = devices ∧ IsFirstMax p devices d) := by
  have hchain : pyMaxByScore (devices.filter p) = firstMaxP p devices := by
    rw [pyMaxByScore_eq_firstMaxP, firstMaxP_true_filter]
  cases hm : pyMaxByScore (devices.filter p) with
  | none =>
    have hfm : firstMaxP p devices = none := hchain.symm.trans hm
    constructor
    · exact iff_of_true rfl (firstMaxP_eq_none.mp hfm)
    · intro ds d hok
      exact Except.noConfusion hok
  | some d0 =>
    have hfm : firstMaxP p devices = some d0 := hchain.symm.trans hm
    constructor
    · apply iff_of_false
      · intro hbad
        exact Except.noConfusion hbad
      · intro hnil
        rw [firstMaxP_eq_none.mpr hnil] at hfm
        exact Option.noConfusion hfm
    · intro ds d hok
      have hok' : (Except.ok (devices, d0) : Except PyError (List GPUDevice × GPUDevice)) =
          Except.ok (ds, d) := hok
      have hpair : (devices, d0) = (ds, d) := by
        injection hok'
      obtain ⟨h1, h2⟩ := Prod.mk.injEq .. ▸ hpair
      subst h1
      have hd : d = d0 := h2.symm
      subst hd
      exact ⟨rfl, firstMaxP_isFirstMax hfm⟩

/-- C4: `_auto_select_device` is deterministic on a nonempty catalog: it
selects the unique device that has the maximal performance score among the
discrete non-CPU devices when at least one exists (ties broken by catalog
order, first discovered wins), and otherwise the maximal-score device of the
whole catalog under the same tie-break; `IsFirstMax` packages membership,
score maximality and the first-wins tie-break. -/
theorem auto_select_device_spec (devices : List GPUDevice)
    (cpuProbe : Option GPUDevice) (h : devices ≠ []) :
    ∃ d, auto_select_device devices cpuProbe = .ok (devices, d) ∧
      (if devices.filter isDiscreteGpu = [] then
        IsFirstMax (fun _ => true) devices d
       else IsFirstMax isDiscreteGpu devices d) := by
  have hne : devices.isEmpty = false := by
    cases devices with
    | nil => exact absurd rfl h
    | cons a l => rfl
  cases hd : firstMaxP isDiscreteGpu devices with
  | some d =>
    have hfilter : devices.filter isDiscreteGpu ≠ [] := by
      intro hnil
      rw [firstMaxP_eq_none.mpr hnil] at hd
      exact Option.noConfusion hd
    refine ⟨d, ?_, ?_⟩
    · show auto_select_device devices cpuProbe = Except.ok (devices, d)
      simp only [auto_select_device, hne, Bool.false_eq_true, if_false]
      rw [head_filter_pySorted, hd]
    · rw [if_neg hfilter]
      exact firstMaxP_isFirstMax hd
  | none =>
    have hfilter : devices.filter isDiscreteGpu = [] := firstMaxP_eq_none.mp hd
    cases htop : firstMaxP (fun _ => true) devices with
    | none =>
      have : devices.filter (fun _ => true) = [] := firstMaxP_eq_none.mp htop
      rw [List.filter_true] at this
      exact absurd this h
    | some d =>
      refine ⟨d, ?_, ?_⟩
      · show auto_select_device devices cpuProbe = Except.ok (devices, d)
        simp only [auto_select_device, hne, Bool.false_eq_true, if_false]
        rw [head_filter_pySorted, hd, head?_pySorted_eq, htop]
      · rw [if_pos hfilter]
        exact firstMaxP_isFirstMax htop

/-- Witness for C4 at the concrete catalog of spec section 8:
`[GPU(score=900, discrete), GPU(score=400, discrete), CPU(score=100)]`;
auto-selection returns the score-900 device. -/
theorem auto_select_device_spec_witness :
    ([gpu900, gpu400, cpu100] ≠ ([] : List GPUDevice)) ∧
    (∃ d, auto_select_device [gpu900, gpu400, cpu100] none =
        .ok ([gpu900, gpu400, cpu100], d) ∧
      (if [gpu900, gpu400, cpu100].filter isDiscreteGpu = [] then
        IsFirstMax (fun _ => true) [gpu900, gpu400, cpu100] d
       else IsFirstMax isDiscreteGpu [gpu900, gpu400, cpu100] d)) ∧
    auto_select_device [gpu900, gpu400, cpu100] none =
      .ok ([gpu900, gpu400, cpu100], gpu900) :=
  ⟨by decide, auto_select_device_spec [gpu900, gpu400, cpu100] none (by decide),
    by rfl⟩

/-- C1 (code bug): discovery does not guarantee exactly one CPU_FALLBACK
device, and a throwing backend probe can skip later backends and the CPU
probe.  In `envCudaRaises` the CUDA probe's exception propagates out of
`_detect_all_devices` (no devices, no CPU probe run); in `envNoCpuCount`
discovery completes without error yet the catalog contains zero CPU
devices because `_detect_cpu_device` appends nothing when psutil reports
no physical core count. -/
theorem detect_all_devices_violations :
    detect_all_devices envCudaRaises = ([], some PyError.runtimeError) ∧
    (detect_all_devices envCudaRaises).1.filter
      (fun d => d.device_type == DeviceType.cpu) = [] ∧
    (detect_all_devices envNoCpuCount).2 = none ∧
    (detect_all_devices envNoCpuCount).1 = [gpu400] ∧
    (detect_all_devices envNoCpuCount).1.filter
      (fun d => d.device_type == DeviceType.cpu) = [] :=
  ⟨rfl, rfl, rfl, rfl, rfl⟩

theorem detect_all_devices_cpu_unique (env : DetectEnv) (nc nt : Nat)
    (hprobe : env.cuda_available = true → env.cuda_error = none)
    (hnc : env.cpu_cores = some nc)
    (hnt : env.cpu_threads = some nt)
    (hcuda : ∀ d ∈ env.cuda_devices, d.device_type ≠ DeviceType.cpu)
    (hdml : ∀ d ∈ env.directml_devices, d.device_type ≠ DeviceType.cpu)
    (hocl : ∀ d ∈ env.opencl_devices, d.device_type ≠ DeviceType.cpu)
    (hmps : ∀ d ∈ env.mps_device.toList, d.device_type ≠ DeviceType.cpu)
    (hcpu : env.cpu_device.device_type = DeviceType.cpu) :
    (detect_all_devices env).2 = none ∧
    (detect_all_devices env).1.filter
      (fun d => d.device_type == DeviceType.cpu) = [env.cpu_device] := by
  have hfilter : ∀ l : List GPUDevice,
      (∀ d ∈ l, d.device_type ≠ DeviceType.cpu) →
      l.filter (fun d => d.device_type == DeviceType.cpu) = [] := by
    intro l hl
    rw [List.filter_eq_nil_iff]
    intro a ha
    simp only [beq_iff_eq]
    exact fun hc => hl a ha hc
  have f1 := hfilter env.cuda_devices hcuda
  have f2 := hfilter env.directml_devices hdml
  have f3 := hfilter env.opencl_devices hocl
  have f4 := hfilter env.mps_device.toList hmps
  have hcpu' : (env.cpu_device.device_type == DeviceType.cpu) = true := by
    simp [hcpu]
  cases hA : env.cuda_available <;> cases hB : env.directml_available <;>
    cases hC : env.opencl_available <;> cases hD : env.mps_available <;>
    simp [detect_all_devices, detect_cuda_devices, detect_directml_devices,
      detect_opencl_devices, detect_mps_devices, detect_cpu_device,
      hA, hB, hC, hD, hnc, hnt, hprobe, List.filter_append,
      f1, f2, f3, f4, hcpu']

/-- C6 (code bug): publishing to a job with one dead and one live
subscriber delivers to the live subscriber and the publish does not raise,
but the dead channel is NOT removed from the subscriber set: the bare
`except: pass` at lines 233-235 — sitting under the source's own
`# Remove failed connections` comment — removes nothing, contradicting
both that comment and the spec. -/
theorem broadcast_dead_subscriber_not_removed :
    deadCh.alive = false ∧ liveCh.alive = true ∧
    broadcast_training_progress [("t1", [deadCh, liveCh])] [("t1", infoA)]
      "t1" = .ok ([("t1", [deadCh, liveCh])], [(1, frameA)]) :=
  ⟨rfl, rfl, rfl⟩

/-- C7 (code bug): the frame actually delivered to a subscriber carries the
full `training_info`, including `config` and `dataset_config`: the source
builds the stripped `broadcast_data` (lines 224-227) but then sends
`progress_data` (line 232), so the bulk configuration fields are not
excluded from the published frame. -/
theorem broadcast_frame_contains_configs :
    broadcast_training_progress [("t1", [liveCh])] [("t1", infoA)] "t1" =
      .ok ([("t1", [liveCh])], [(1, frameA)]) ∧
    frameA.data.config = some cfgTrain ∧
    frameA.data.dataset_config = some cfgData ∧
    (strip_configs infoA).config = none ∧
    (strip_configs infoA).dataset_config = none :=
  ⟨rfl, rfl, rfl, rfl, rfl⟩

/-- C8 counterexample: the record of job `"j"` is in the terminal state
`"completed"`, yet `pause_training` moves it to `"paused"` and
`resume_training` moves it to `"running"` — contradicting the claim that
control calls on a terminal job cannot move its state back. -/
theorem pause_completed_job_sets_paused :
    infoDone.status = JobStatus.completed ∧
    dictLookup (pause_training stDone "j").active_trainings "j" =
      some { infoDone with status := JobStatus.paused } ∧
    dictLookup (resume_training stDone "j").active_trainings "j" =
      some { infoDone with status := JobStatus.running } :=
  ⟨rfl, rfl, rfl⟩

theorem find?_setStatus (m : List (String × TrainingInfo)) (k : String)
    (st : JobStatus) :
    (setStatus m k st).find? (fun p => p.1 == k) =
      (m.find? (fun p => p.1 == k)).map
        (fun p => (p.1, { p.2 with status := st })) := by
  induction m with
  | nil => rfl
  | cons p m ih =>
    obtain ⟨k', v⟩ := p
    have hcons : setStatus ((k', v) :: m) k st =
        (if (k' == k) = true then (k', { v with status := st })
         else (k', v)) :: setStatus m k st := rfl
    rw [hcons]
    by_cases hk : (k' == k) = true
    · rw [if_pos hk]
      simp only [List.find?_cons, hk]
      rfl
    · have hkf : (k' == k) = false := by simpa using hk
      rw [if_neg hk]
      simp only [List.find?_cons, hkf]
      exact ih

theorem dictLookup_setStatus (m : List (String × TrainingInfo)) (k : String)
    (st : JobStatus) :
    dictLookup (setStatus m k st) k =
      (dictLookup m k).map (fun i => { i with status := st }) := by
  rw [dictLookup, dictLookup, find?_setStatus]
  cases m.find? (fun p => p.1 == k) <;> rfl

/-- C8 (amended): `pause_training` and `resume_training` set the state of
any job present in the map unconditionally to `"paused"` / `"running"`
respectively: no state-machine validity check is performed, so even a job
in a terminal state (COMPLETED, CANCELLED, FAILED) is moved back. -/
theorem pause_resume_unconditional (s : EngineState) (training_id : String)
    (info : TrainingInfo)
    (h : dictLookup s.active_trainings training_id = some info) :
    dictLookup (pause_training s training_id).active_trainings training_id =
      some { info with status := JobStatus.paused } ∧
    dictLookup (resume_training s training_id).active_trainings training_id =
      some { info with status := JobStatus.running } := by
  have hp : pause_training s training_id =
      { s with active_trainings :=
          setStatus s.active_trainings training_id .paused } := by
    rw [pause_training, h]
  have hr : resume_training s training_id =
      { s with active_trainings :=
          setStatus s.active_trainings training_id .running } := by
    rw [resume_training, h]
  rw [hp, hr]
  constructor
  · rw [dictLookup_setStatus, h]
    rfl
  · rw [dictLookup_setStatus, h]
    rfl

/-- Witness for the amended C8 at the concrete completed job. -/
theorem pause_resume_unconditional_witness :
    dictLookup stDone.active_trainings "j" = some infoDone ∧
    (dictLookup (pause_training stDone "j").active_trainings "j" =
      some { infoDone with status := JobStatus.paused } ∧
    dictLookup (resume_training stDone "j").active_trainings "j" =
      some { infoDone with status := JobStatus.running }) :=
  ⟨rfl, pause_resume_unconditional stDone "j" infoDone rfl⟩

/-- C10: the control calls `stop_training`, `pause_training` and
`resume_training` on a job id absent from the job map return without
raising and leave the whole engine state (hence every job's record)
unchanged, whereas `get_training_status` on the same absent id raises
`ValueError`. -/
theorem control_calls_absent_id (s : EngineState) (training_id : String)
    (h : dictLookup s.active_trainings training_id = none) :
    stop_training s training_id = s ∧
    pause_training s training_id = s ∧
    resume_training s training_id = s ∧
    get_training_status s training_id = .error .valueError := by
  refine ⟨?_, ?_, ?_, ?_⟩
  · rw [stop_training, h]
  · rw [pause_training, h]
  · rw [resume_training, h]
  · rw [get_training_status, h]

/-- Witness for C10 at a concrete state and the absent id `"absent"`. -/
theorem control_calls_absent_id_witness :
    dictLookup stDone.active_trainings "absent" = none ∧
    (stop_training stDone "absent" = stDone ∧
    pause_training stDone "absent" = stDone ∧
    resume_training stDone "absent" = stDone ∧
    get_training_status stDone "absent" = .error .valueError) :=
  ⟨rfl, control_calls_absent_id stDone "absent" rfl⟩

theorem dictLookup_append_fresh {α : Type} {m : List (String × α)}
    {k : String} (v : α) (h : dictLookup m k = none) :
    dictLookup (m ++ [(k, v)]) k = some v := by
  induction m with
  | nil =>
    rw [List.nil_append, dictLookup]
    simp only [List.find?_cons, beq_self_eq_true]
    rfl
  | cons p m ih =>
    obtain ⟨k', v'⟩ := p
    by_cases hk : (k' == k) = true
    · exfalso
      rw [dictLookup] at h
      simp only [List.find?_cons, hk] at h
      simp at h
    · have hkf : (k' == k) = false := by simpa using hk
      have h' : dictLookup m k = none := by
        rw [dictLookup] at h
        simp only [List.find?_cons, hkf] at h
        exact h
      rw [List.cons_append, dictLookup]
      simp only [List.find?_cons, hkf]
      exact ih h'

theorem eraseP_append_fresh {α : Type} {m : List (String × α)}
    {k : String} (v : α) (h : dictLookup m k = none) :
    (m ++ [(k, v)]).eraseP (fun p => p.1 == k) = m := by
  induction m with
  | nil =>
    rw [List.nil_append]
    simp [List.eraseP_cons]
  | cons p m ih =>
    obtain ⟨k', v'⟩ := p
    by_cases hk : (k' == k) = true
    · exfalso
      rw [dictLookup] at h
      simp only [List.find?_cons, hk] at h
      simp at h
    · have hkf : (k' == k) = false := by simpa using hk
      have h' : dictLookup m k = none := by
        rw [dictLookup] at h
        simp only [List.find?_cons, hkf] at h
        exact h
      rw [List.cons_append]
      simp only [List.eraseP_cons, hkf, cond_false]
      rw [ih h']

/-- C5 counterexample: on an empty catalog with a CPU probe that
contributes nothing (psutil reports no core count), both `CPU_ONLY` and
`AUTO` raise `IndexError` out of `_fallback_to_cpu`'s `self.devices[-1]` —
so "CPU_ONLY and AUTO never fail" is false as stated. -/
theorem set_gpu_preference_cpu_auto_can_fail :
    set_gpu_preference [] none .cpu_only = .error .indexError ∧
    set_gpu_preference [] none .auto = .error .indexError :=
  ⟨rfl, rfl⟩

/-- C5 (amended): for each of the four vendor/class preferences,
`set_gpu_preference` fails with `RuntimeError` (the spec's
`PreferenceUnsatisfiable`) exactly when the catalog has zero matching
non-CPU devices, and otherwise succeeds selecting the highest-scoring
matching device (catalog-order tie-break); `CPU_ONLY` and `AUTO` never
fail provided the catalog is nonempty or the CPU probe contributes a
device. -/
theorem set_gpu_preference_spec (devices : List GPUDevice)
    (cpuProbe : Option GPUDevice) :
    (((set_gpu_preference devices cpuProbe .gpu_only = .error .runtimeError) ↔
        devices.filter (fun d => d.device_type != DeviceType.cpu) = []) ∧
      (∀ ds d, set_gpu_preference devices cpuProbe .gpu_only = .ok (ds, d) →
        ds = devices ∧
        IsFirstMax (fun d => d.device_type != DeviceType.cpu) devices d)) ∧
    (((set_gpu_preference devices cpuProbe .nvidia_only = .error .runtimeError) ↔
        devices.filter (fun d => d.vendor == VendorType.nvidia &&
          d.device_type != DeviceType.cpu) = []) ∧
      (∀ ds d, set_gpu_preference devices cpuProbe .nvidia_only = .ok (ds, d) →
        ds = devices ∧
        IsFirstMax (fun d => d.vendor == VendorType.nvidia &&
          d.device_type != DeviceType.cpu) devices d)) ∧
    (((set_gpu_preference devices cpuProbe .amd_only = .error .runtimeError) ↔
        devices.filter (fun d => d.vendor == VendorType.amd &&
          d.device_type != DeviceType.cpu) = []) ∧
      (∀ ds d, set_gpu_preference devices cpuProbe .amd_only = .ok (ds, d) →
        ds = devices ∧
        IsFirstMax (fun d => d.vendor == VendorType.amd &&
          d.device_type != DeviceType.cpu) devices d)) ∧
    (((set_gpu_preference devices cpuProbe .intel_only = .error .runtimeError) ↔
        devices.filter (fun d => d.vendor == VendorType.intel &&
          d.device_type != DeviceType.cpu) = []) ∧
      (∀ ds d, set_gpu_preference devices cpuProbe .intel_only = .ok (ds, d) →
        ds = devices ∧
        IsFirstMax (fun d => d.vendor == VendorType.intel &&
          d.device_type != DeviceType.cpu) devices d)) ∧
    ((devices ≠ [] ∨ cpuProbe.isSome = true) →
      (∃ r, set_gpu_preference devices cpuProbe .cpu_only = .ok r) ∧
      (∃ r, set_gpu_preference devices cpuProbe .auto = .ok r)) := by
  refine ⟨vendor_pick_spec _ devices, vendor_pick_spec _ devices,
    vendor_pick_spec _ devices, vendor_pick_spec _ devices, ?_⟩
  intro hor
  constructor
  · cases hf : devices.find? (fun d => d.device_type == DeviceType.cpu) with
    | some d =>
      refine ⟨(devices, d), ?_⟩
      show (match devices.find? (fun d => d.device_type == DeviceType.cpu) with
            | some d =>
              (Except.ok (devices, d) :
                Except PyError (List GPUDevice × GPUDevice))
            | none => fallback_to_cpu devices cpuProbe) = _
      rw [hf]
    | none =>
      have hne : devices ++ cpuProbe.toList ≠ [] := by
        rcases hor with hne | hsome
        · cases devices with
          | nil => exact absurd rfl hne
          | cons a l => simp
        · cases cpuProbe with
          | none => simp at hsome
          | some c => simp
      obtain ⟨c, hc⟩ := getLast?_ne_none hne
      refine ⟨(devices ++ cpuProbe.toList, c), ?_⟩
      show (match devices.find? (fun d => d.device_type == DeviceType.cpu) with
            | some d =>
              (Except.ok (devices, d) :
                Except PyError (List GPUDevice × GPUDevice))
            | none => fallback_to_cpu devices cpuProbe) = _
      rw [hf, fallback_to_cpu, hf]
      simp only [hc]
  · cases hdev : devices with
    | nil =>
      rcases hor with hne | hsome
      · exact absurd hdev hne
      · cases cpuProbe with
        | none => simp at hsome
        | some c => exact ⟨([c], c), rfl⟩
    | cons a l =>
      rw [← hdev]
      have hne : devices ≠ [] := by
        rw [hdev]
        simp
      have hemp : devices.isEmpty = false := by
        rw [hdev]
        rfl
      cases hh : ((pySortedDesc devices).filter isDiscreteGpu).head? with
      | some d =>
        refine ⟨(devices, d), ?_⟩
        show auto_select_device devices cpuProbe = _
        simp only [auto_select_device, hemp, Bool.false_eq_true, if_false]
        rw [hh]
      | none =>
        obtain ⟨b, bs, hbs⟩ : ∃ b bs, pySortedDesc devices = b :: bs := by
          cases hps : pySortedDesc devices with
          | nil => exact absurd hps (pySorted_ne_nil hne)
          | cons b bs => exact ⟨b, bs, rfl⟩
        refine ⟨(devices, b), ?_⟩
        show auto_select_device devices cpuProbe = _
        simp only [auto_select_device, hemp, Bool.false_eq_true, if_false]
        rw [hh, hbs]
        rfl

/-- Witness for the amended C5 at the concrete three-device catalog. -/
theorem set_gpu_preference_spec_witness :
    (∃ r, set_gpu_preference [gpu900, gpu400, cpu100] none .cpu_only = .ok r) ∧
    (∃ r, set_gpu_preference [gpu900, gpu400, cpu100] none .auto = .ok r) :=
  (set_gpu_preference_spec [gpu900, gpu400, cpu100] none).2.2.2.2
    (Or.inl (by decide))

/-- C9: registry round-trip — after a successful `create_model` at a fresh
uuid, `get_model_info` returns exactly the stored metadata minus the
internal-only `model` entry (the live torch module), and after
`delete_model` on that id a further `get_model_info` fails with
`ValueError` (the spec's `NotFound`). -/
theorem model_factory_round_trip (models : List (String × ModelInfo))
    (model_id name model_type : String)
    (architecture hyperparameters : ConfigBag) (handle param_count : Nat)
    (created_at : String)
    (hty : model_type = "mlp" ∨ model_type = "rnn" ∨ model_type = "cnn")
    (hfresh : dictLookup models model_id = none) :
    ∃ models',
      create_model models model_id name model_type architecture
        hyperparameters handle param_count created_at = .ok models' ∧
      get_model_info models' model_id = .ok
        { id := model_id, name := name, model_type := model_type,
          architecture := architecture, hyperparameters := hyperparameters,
          parameter_count := param_count, created_at := created_at,
          status := "created", model := none } ∧
      ∃ models'', delete_model models' model_id = .ok models'' ∧
        get_model_info models'' model_id = .error .valueError := by
  have htyb : (model_type == "mlp" || model_type == "rnn" ||
      model_type == "cnn") = true := by
    rcases hty with h | h | h <;> simp [h]
  refine ⟨models ++ [(model_id,
    { id := model_id, name := name, model_type := model_type,
      architecture := architecture, hyperparameters := hyperparameters,
      parameter_count := param_count, created_at := created_at,
      status := "created", model := some handle })], ?_, ?_, models, ?_, ?_⟩
  · rw [create_model, if_pos htyb]
  · rw [get_model_info, dictLookup_append_fresh _ hfresh]
  · rw [delete_model, dictLookup_append_fresh _ hfresh,
      eraseP_append_fresh _ hfresh]
  · rw [get_model_info, hfresh]

/-- Witness for C9: create an MLP unit at the fresh id `"m1"` in the empty
registry, read it back, delete it, read again. -/
theorem model_factory_round_trip_witness :
    ("mlp" = "mlp" ∨ "mlp" = "rnn" ∨ "mlp" = "cnn") ∧
    dictLookup ([] : List (String × ModelInfo)) "m1" = none ∧
    (∃ models',
      create_model [] "m1" "net" "mlp" cfgTrain cfgData 7 101770
        "2026-10-12T00:00:00" = .ok models' ∧
      get_model_info models' "m1" = .ok
        { id := "m1", name := "net", model_type := "mlp",
          architecture := cfgTrain, hyperparameters := cfgData,
          parameter_count := 101770, created_at := "2026-10-12T00:00:00",
          status := "created", model := none } ∧
      ∃ models'', delete_model models' "m1" = .ok models'' ∧
        get_model_info models'' "m1" = .error .valueError) :=
  ⟨Or.inl rfl, rfl,
    model_factory_round_trip [] "m1" "net" "mlp" cfgTrain cfgData 7 101770
      "2026-10-12T00:00:00" (Or.inl rfl) rfl⟩

/-- C2 counterexample: start a 3-epoch job, let the task run one epoch,
pause the job, and let the task observe its epoch-boundary check point:
the task exits the loop early (only 1 of 3 epochs done), but instead of
`"cancelled"` the epilogue of `_training_loop` records the job as
`"completed"`. -/
theorem training_loop_pause_marks_completed :
    (runEvs (start_training1 3) [JobEv.task]).status = JobStatus.running ∧
    (runEvs (start_training1 3) [JobEv.task]).current_epoch = 1 ∧
    (runEvs (start_training1 3) [JobEv.task, JobEv.pause]).status =
      JobStatus.paused ∧
    (runEvs (start_training1 3)
      [JobEv.task, JobEv.pause, JobEv.task]).status = JobStatus.completed ∧
    (runEvs (start_training1 3)
      [JobEv.task, JobEv.pause, JobEv.task]).current_epoch = 1 ∧
    JobStatus.completed ≠ JobStatus.cancelled :=
  ⟨rfl, rfl, rfl, rfl, rfl, by decide⟩

/-- C2 (amended): when the execution task observes at its epoch-boundary
check point that the status has moved off `"running"`, it exits the loop
early, and the job ends in `"cancelled"` only when cancellation of the
task was also requested (the stop path); otherwise the epilogue marks the
job `"completed"`. -/
theorem training_loop_early_exit_status (s : JobMachine)
    (hpc : s.pc = TaskPC.sleeping) (hst : s.status ≠ JobStatus.running) :
    task_resume s =
      (if s.cancelRequested then
        { s with
          status := JobStatus.cancelled
          pc := TaskPC.finished
          inTasks := false }
      else
        { s with
          status := JobStatus.completed
          pc := TaskPC.finished
          inTasks := false }) := by
  simp only [task_resume, hpc]
  by_cases hcr : s.cancelRequested = true
  · simp [hcr]
  · by_cases hce : s.current_epoch = s.total_epochs <;>
      simp [hcr, loop_iter, hst, hce]

/-- Witness for the amended C2: a paused job, one of three epochs done,
task suspended at the epoch-end sleep with no cancellation requested. -/
theorem training_loop_early_exit_witness :
    (pause1 jmRun).pc = TaskPC.sleeping ∧
    (pause1 jmRun).status ≠ JobStatus.running ∧
    task_resume (pause1 jmRun) =
      (if (pause1 jmRun).cancelRequested then
        { pause1 jmRun with
          status := JobStatus.cancelled
          pc := TaskPC.finished
          inTasks := false }
      else
        { pause1 jmRun with
          status := JobStatus.completed
          pc := TaskPC.finished
          inTasks := false }) :=
  ⟨rfl, by decide,
    training_loop_early_exit_status (pause1 jmRun) rfl (by decide)⟩

theorem runEvs_preserves (P : JobMachine → Prop)
    (hP : ∀ t e, P t → P (applyEv t e)) :
    ∀ (evs : List JobEv) (t : JobMachine), P t → P (runEvs t evs) := by
  intro evs
  induction evs with
  | nil => exact fun t ht => ht
  | cons e evs ih => exact fun t ht => ih (applyEv t e) (hP t e ht)

/-- C3 counterexample: a job whose task already finished (zero epochs, so
the task completed at its first run) is forced back to `"running"` by
`resume`; by the claim's wording it is then a job "in state RUNNING", but
`stop` on it only reaches `"stopping"`: the task entry is gone, no
cancellation can be delivered, and no continuation of any interleaving
ever reaches `"cancelled"`. -/
theorem stop_after_task_finished_never_cancelled :
    (runEvs (start_training1 0) [JobEv.task, JobEv.resume]).status =
      JobStatus.running ∧
    (runEvs (start_training1 0)
      [JobEv.task, JobEv.resume, JobEv.stop]).status = JobStatus.stopping ∧
    NeverCancelledFrom
      (runEvs (start_training1 0) [JobEv.task, JobEv.resume, JobEv.stop]) := by
  refine ⟨rfl, rfl, ?_⟩
  intro evs
  have key : ∀ t e,
      (t.pc = TaskPC.finished ∧ t.status ≠ JobStatus.cancelled) →
      ((applyEv t e).pc = TaskPC.finished ∧
        (applyEv t e).status ≠ JobStatus.cancelled) := by
    rintro t e ⟨hpc, hst⟩
    cases e
    case task => simp [applyEv, task_resume, hpc, hst]
    case stop =>
      by_cases hin : t.inTasks = true <;> simp [applyEv, stop1, hin, hpc]
    case pause => simp [applyEv, pause1, hpc]
    case resume => simp [applyEv, resume1, hpc]
  exact (runEvs_preserves _ key evs _ ⟨rfl, by decide⟩).2

/-- C3 (amended): `stop_training` on a RUNNING job whose execution task is
still alive (suspended at the epoch-end sleep and present in
`training_tasks`) sets the status to `"stopping"` and requests the task's
cancellation; afterwards, under every interleaving of further control
calls and task steps, the job never reaches `"completed"`, no further
epoch completes, and the task's next resumption puts the job into the
terminal state `"cancelled"` — i.e. cancellation takes effect within one
epoch boundary. -/
theorem stop_training_live_task_cancels (s : JobMachine)
    (hrun : s.status = JobStatus.running) (hpc : s.pc = TaskPC.sleeping)
    (htask : s.inTasks = true) :
    (stop1 s).status = JobStatus.stopping ∧
    (stop1 s).cancelRequested = true ∧
    ∀ evs : List JobEv,
      (runEvs (stop1 s) evs).status ≠ JobStatus.completed ∧
      (runEvs (stop1 s) evs).current_epoch = s.current_epoch ∧
      ((runEvs (stop1 s) evs).pc ≠ TaskPC.finished →
        (task_resume (runEvs (stop1 s) evs)).status = JobStatus.cancelled ∧
        (task_resume (runEvs (stop1 s) evs)).pc = TaskPC.finished ∧
        (task_resume (runEvs (stop1 s) evs)).current_epoch =
          s.current_epoch) := by
  have hstop : stop1 s =
      { s with status := JobStatus.stopping, cancelRequested := true } := by
    rw [stop1, if_pos htask]
  have key : ∀ t e,
      (t.cancelRequested = true ∧ t.status ≠ JobStatus.completed ∧
        t.pc ≠ TaskPC.start ∧ t.current_epoch = s.current_epoch) →
      ((applyEv t e).cancelRequested = true ∧
        (applyEv t e).status ≠ JobStatus.completed ∧
        (applyEv t e).pc ≠ TaskPC.start ∧
        (applyEv t e).current_epoch = s.current_epoch) := by
    rintro t e ⟨hc, hnc, hns, he⟩
    cases e
    case task =>
      cases hpcc : t.pc with
      | start => exact absurd hpcc hns
      | sleeping => simp [applyEv, task_resume, hpcc, hc, he]
      | finished => simp [applyEv, task_resume, hpcc, hc, hnc, hns, he]
    case stop =>
      by_cases hin : t.inTasks = true <;>
        simp [applyEv, stop1, hin, hc, hns, he]
    case pause => simp [applyEv, pause1, hc, hns, he]
    case resume => simp [applyEv, resume1, hc, hns, he]
  have hI0 : (stop1 s).cancelRequested = true ∧
      (stop1 s).status ≠ JobStatus.completed ∧
      (stop1 s).pc ≠ TaskPC.start ∧
      (stop1 s).current_epoch = s.current_epoch := by
    rw [hstop]
    refine ⟨rfl, ?_, ?_, rfl⟩
    · show JobStatus.stopping ≠ JobStatus.completed
      decide
    · show s.pc ≠ TaskPC.start
      rw [hpc]
      decide
  refine ⟨by rw [hstop], by rw [hstop], ?_⟩
  intro evs
  obtain ⟨hc, hnc, hns, he⟩ := runEvs_preserves _ key evs (stop1 s) hI0
  refine ⟨hnc, he, ?_⟩
  intro hfin
  cases hpcc : (runEvs (stop1 s) evs).pc with
  | start => exact absurd hpcc hns
  | sleeping =>
    refine ⟨?_, ?_, ?_⟩ <;> simp [task_resume, hpcc, hc, he]
  | finished => exact absurd hpcc hfin

/-- Witness for the amended C3 at the concrete running job `jmRun`. -/
theorem stop_training_live_task_cancels_witness :
    (jmRun.status = JobStatus.running ∧ jmRun.pc = TaskPC.sleeping ∧
      jmRun.inTasks = true) ∧
    ((stop1 jmRun).status = JobStatus.stopping ∧
    (stop1 jmRun).cancelRequested = true ∧
    ∀ evs : List JobEv,
      (runEvs (stop1 jmRun) evs).status ≠ JobStatus.completed ∧
      (runEvs (stop1 jmRun) evs).current_epoch = jmRun.current_epoch ∧
      ((runEvs (stop1 jmRun) evs).pc ≠ TaskPC.finished →
        (task_resume (runEvs (stop1 jmRun) evs)).status =
          JobStatus.cancelled ∧
        (task_resume (runEvs (stop1 jmRun) evs)).pc = TaskPC.finished ∧
        (task_resume (runEvs (stop1 jmRun) evs)).current_epoch =
          jmRun.current_epoch)) :=
  ⟨⟨rfl, rfl, rfl⟩, stop_training_live_task_cancels jmRun rfl rfl rfl⟩
